import Mathlib

set_option maxHeartbeats 1000000
set_option maxRecDepth 4000

/- A verification development for the global-co2-react-native repository.
   It embeds the CO2 reading acquisition and normalization logic of
   `src/App.tsx` (interactive app: `getOpenAIApiKey`, `fetchCurrentCo2`) and of
   `src/scripts/update-co2.mjs` (batch updater script). JavaScript values that
   flow through the loosely typed API response are modelled by `JsonValue`,
   JavaScript numbers by `JsNum` (a finite value as a rational, NaN, or a
   signed infinity). -/

/-- A finite JavaScript number, represented as the scaled decimal
`mant / 10 ^ scale`. Every number the two programs manipulate originates from
decimal JSON text or from decimal string coercion, so this representation is
exact; it is kept in the form produced by parsing and compared
representationally where it occurs. -/
structure DecNum where
  mant : ℤ
  scale : ℕ
deriving DecidableEq, Repr

/-- The rational value of a scaled decimal. -/
def DecNum.toRat (d : DecNum) : ℚ := (d.mant : ℚ) / 10 ^ d.scale

/-- Multiply a scaled decimal by `10 ^ e`. -/
def DecNum.shift10 (d : DecNum) (e : ℤ) : DecNum :=
  if 0 ≤ e then
    let n := e.toNat
    if n ≤ d.scale then ⟨d.mant, d.scale - n⟩ else ⟨d.mant * 10 ^ (n - d.scale), 0⟩
  else ⟨d.mant, d.scale + (-e).toNat⟩

/-- Negate a scaled decimal. -/
def DecNum.neg (d : DecNum) : DecNum := ⟨-d.mant, d.scale⟩

/-- JavaScript numbers: a finite value (as a scaled decimal), NaN, or a
signed infinity. -/
inductive JsNum where
  | num (v : DecNum)
  | nan
  | posInf
  | negInf
deriving DecidableEq, Repr

/-- The finite JavaScript number with integer value `z`. -/
def JsNum.ofInt (z : ℤ) : JsNum := .num ⟨z, 0⟩

/-- `Number.isFinite`. -/
def JsNum.isFinite : JsNum → Bool
  | .num _ => true
  | _ => false

/-- Loosely typed JavaScript/JSON values. A JavaScript `undefined` is modelled
as `Option.none` at every access site (field lookup, array head, optional
response fields) rather than as a `JsonValue` constructor. -/
inductive JsonValue where
  | jnull
  | bool (b : Bool)
  | num (n : JsNum)
  | str (s : String)
  | arr (elems : List JsonValue)
  | obj (fields : List (String × JsonValue))
deriving Repr

/-- JavaScript truthiness of a value. -/
def truthy : JsonValue → Bool
  | .jnull => false
  | .bool b => b
  | .num (.num v) => v.mant ≠ 0
  | .num .nan => false
  | .num .posInf => true
  | .num .negInf => true
  | .str s => s ≠ ""
  | .arr _ => true
  | .obj _ => true

/-- Truthiness of a possibly-undefined value (`undefined` is falsy). -/
def optTruthy : Option JsonValue → Bool
  | none => false
  | some v => truthy v

/-- Whether `typeof v === 'object'` holds in JavaScript (true for `null`,
arrays and plain objects). -/
def isObjectType : JsonValue → Bool
  | .jnull => true
  | .arr _ => true
  | .obj _ => true
  | _ => false

/-- Whether `typeof v === 'string'` holds. -/
def isStringVal : JsonValue → Bool
  | .str _ => true
  | _ => false

/-- JavaScript property read `v.k`: a field of a plain object, `undefined`
(`none`) on every other value and on an absent field. -/
def getField : JsonValue → String → Option JsonValue
  | .obj fields, k => (fields.find? (fun p => p.1 = k)).map (fun p => p.2)
  | _, _ => none

/-- The guard `item && typeof item === 'object' &&
(item.type === 'json' || item.type === 'json_schema')`, the predicate
`isJsonContent` of `src/App.tsx` and the `structuredItem` search predicate of
`src/scripts/update-co2.mjs` (they are textually equivalent). -/
def isJsonContent (item : JsonValue) : Bool :=
  truthy item && isObjectType item &&
    (match getField item "type" with
     | some (.str t) => t == "json" || t == "json_schema"
     | _ => false)

/-- The guard `item && typeof item === 'object' && typeof item.text === 'string'`,
the predicate `isTextContent` of `src/App.tsx` and the `textItem` search
predicate of `src/scripts/update-co2.mjs`. -/
def isTextContent (item : JsonValue) : Bool :=
  truthy item && isObjectType item &&
    (match getField item "text" with
     | some (.str _) => true
     | _ => false)

/-- The decoded body of the OpenAI `/v1/responses` call, as far as both
programs read it: `output` is a list of output items, each carrying an
optional `content` array of loosely typed content items, and `output_text`
is an optional loosely typed aggregate field. (An absent `output` is
identified with the empty list: `json.output ?? []` in the app,
`Array.isArray(json.output) ? json.output : []` in the script.) -/
structure OAIResponse where
  output : List (Option (List JsonValue))
  output_text : Option JsonValue

/-- `contentItems`: `output.flatMap((item) => item.content ?? [])` in the app
and `output.flatMap((item) => (Array.isArray(item?.content) ? item.content : []))`
in the script; on this model the two coincide. -/
def contentItems (resp : OAIResponse) : List JsonValue :=
  resp.output.flatMap (fun c => c.getD [])


/-- Left-pad a numeral string with zeros to the given length. -/
def natPadLeft (s : String) (len : Nat) : String :=
  if len ≤ s.length then s else String.mk (List.replicate (len - s.length) '0') ++ s

/-- Render `scaled / 10^k` as a decimal numeral with `k` fraction digits. -/
def decimalOfScaled (scaled k : Nat) : String :=
  if k = 0 then toString scaled
  else
    let s := natPadLeft (toString scaled) (k + 1)
    let n := s.length - k
    s.take n ++ "." ++ s.drop n

/-- Strip up to `scale` trailing factors of 10 from a mantissa (fuelled). -/
def stripZeroF : Nat → ℤ → Nat → ℤ × Nat
  | 0, m, s => (m, s)
  | _+1, m, 0 => (m, 0)
  | fuel+1, m, s+1 => if m % 10 = 0 then stripZeroF fuel (m / 10) s else (m, s + 1)

/-- Bring a scaled decimal to lowest scale (JavaScript prints a number in its
shortest decimal form, so `421.30` and `421.3` print identically). -/
def DecNum.normalize (d : DecNum) : DecNum :=
  if d.mant = 0 then ⟨0, 0⟩
  else
    let p := stripZeroF d.scale d.mant d.scale
    ⟨p.1, p.2⟩

/-- JavaScript `ToString` on a finite number (the exponential notation used
for very large or very small magnitudes is not modelled). -/
def decNumToString (d : DecNum) : String :=
  let d := d.normalize
  (if d.mant < 0 then "-" else "") ++ decimalOfScaled d.mant.natAbs d.scale

/-- JavaScript `ToString` on a number. -/
def jsNumToString : JsNum → String
  | .num v => decNumToString v
  | .nan => "NaN"
  | .posInf => "Infinity"
  | .negInf => "-Infinity"

mutual

/-- JavaScript `ToString` on a value (as invoked implicitly by `JSON.parse`
and `Number` on non-primitive arguments): an array joins its elements with
commas, a plain object renders as `[object Object]`. -/
def jsToString : JsonValue → String
  | .jnull => "null"
  | .bool b => if b then "true" else "false"
  | .num n => jsNumToString n
  | .str s => s
  | .arr xs => joinArr xs
  | .obj _ => "[object Object]"

/-- `Array.prototype.join` with the default comma separator; a null element
renders as the empty string. -/
def joinArr : List JsonValue → String
  | [] => ""
  | [x] => arrElemStr x
  | x :: y :: xs => arrElemStr x ++ "," ++ joinArr (y :: xs)

/-- One array element under `join`. -/
def arrElemStr : JsonValue → String
  | .jnull => ""
  | v => jsToString v

end

/-- JavaScript whitespace accepted by `ToNumber` trimming. -/
def isWsChar (c : Char) : Bool :=
  c = ' ' || c = '\t' || c = '\n' || c = '\r' || c = '\x0b' || c = '\x0c'

/-- The decimal digit value of a character, if any. -/
def digitVal? (c : Char) : Option Nat :=
  if '0' ≤ c ∧ c ≤ '9' then some (c.toNat - '0'.toNat) else none

/-- Split a leading run of decimal digits from the input. -/
def takeDigits : List Char → List Nat × List Char
  | [] => ([], [])
  | c :: cs =>
    match digitVal? c with
    | some d => let (ds, rest) := takeDigits cs; (d :: ds, rest)
    | none => ([], c :: cs)

/-- The natural number denoted by a digit list. -/
def digitsToNat (ds : List Nat) : Nat := ds.foldl (fun acc d => acc * 10 + d) 0

/-- A JavaScript unsigned decimal literal (digits, optional fraction, optional
exponent), succeeding only if the whole input is consumed. -/
def decLitVal? (cs : List Char) : Option DecNum :=
  let (ip, r1) := takeDigits cs
  let (fp, r2) :=
    match r1 with
    | '.' :: r => takeDigits r
    | _ => ([], r1)
  if ip.isEmpty ∧ fp.isEmpty then none
  else
    let mant : DecNum :=
      ⟨(digitsToNat ip : ℤ) * 10 ^ fp.length + (digitsToNat fp : ℤ), fp.length⟩
    match r2 with
    | [] => some mant
    | e :: r3 =>
      if e = 'e' ∨ e = 'E' then
        let (esign, r4) : ℤ × List Char :=
          match r3 with
          | '+' :: r => (1, r)
          | '-' :: r => (-1, r)
          | _ => (1, r3)
        let (ed, r5) := takeDigits r4
        if ed.isEmpty ∨ ¬ r5.isEmpty then none
        else some (mant.shift10 (esign * (digitsToNat ed : ℤ)))
      else none

/-- JavaScript `ToNumber` on a string (`Number(s)`): whitespace-trimmed, the
empty string is 0, then an optionally signed decimal literal or `Infinity`;
anything else is NaN (the hex, octal and binary numeral forms JavaScript also
accepts are not modelled). -/
def strToNumber (s : String) : JsNum :=
  let cs := ((s.toList.dropWhile isWsChar).reverse.dropWhile isWsChar).reverse
  match cs with
  | [] => .num ⟨0, 0⟩
  | _ =>
    let (neg, body) : Bool × List Char :=
      match cs with
      | '+' :: r => (false, r)
      | '-' :: r => (true, r)
      | _ => (false, cs)
    if body = ['I', 'n', 'f', 'i', 'n', 'i', 't', 'y'] then
      (if neg then .negInf else .posInf)
    else
      match decLitVal? body with
      | some v => .num (if neg then v.neg else v)
      | none => .nan

/-- JavaScript `ToNumber` (`Number(v)`): undefined is NaN, null is 0, booleans
are 0 and 1, strings via `strToNumber`, arrays and objects via their string
conversion (so an empty array is 0 and a plain object is NaN). -/
def jsToNumber : Option JsonValue → JsNum
  | none => .nan
  | some .jnull => .num ⟨0, 0⟩
  | some (.bool b) => .num ⟨if b then 1 else 0, 0⟩
  | some (.num n) => n
  | some (.str s) => strToNumber s
  | some (.arr xs) => strToNumber (jsToString (.arr xs))
  | some (.obj fs) => strToNumber (jsToString (.obj fs))

/-- `JSON.stringify` escaping of one string character. -/
def jsonEscapeChar (c : Char) : String :=
  if c = '"' then "\\\""
  else if c = '\\' then "\\\\"
  else if c = '\n' then "\\n"
  else if c = '\r' then "\\r"
  else if c = '\t' then "\\t"
  else if c = '\x08' then "\\b"
  else if c = '\x0c' then "\\f"
  else if c.toNat < 32 then "\\u" ++ natPadLeft (String.mk (Nat.toDigits 16 c.toNat)) 4
  else String.singleton c

/-- `JSON.stringify` of a string value. -/
def jsonQuote (s : String) : String :=
  "\"" ++ String.join (s.toList.map jsonEscapeChar) ++ "\""

/-- JSON whitespace. -/
def isJsonWs (c : Char) : Bool := c = ' ' || c = '\t' || c = '\n' || c = '\r'

/-- Drop leading JSON whitespace. -/
def skipWs (cs : List Char) : List Char := cs.dropWhile isJsonWs

/-- The opening curly bracket character. -/
def obrace : Char := Char.ofNat 123

/-- The closing curly bracket character. -/
def cbrace : Char := Char.ofNat 125

/-- Hexadecimal digit value. -/
def hexVal? (c : Char) : Option Nat :=
  if '0' ≤ c ∧ c ≤ '9' then some (c.toNat - '0'.toNat)
  else if 'a' ≤ c ∧ c ≤ 'f' then some (c.toNat - 'a'.toNat + 10)
  else if 'A' ≤ c ∧ c ≤ 'F' then some (c.toNat - 'A'.toNat + 10)
  else none

/-- The body of a JSON string literal after the opening quote, with the JSON
escape sequences; a `\u` escape is modelled as the character of its code unit
(NUL when it is no valid scalar value), without surrogate pairing. Raw control
characters are rejected as JSON requires. -/
def parseStrBody : List Char → List Char → Option (String × List Char)
  | [], _ => none
  | c :: rest, acc =>
    if c = '"' then some (String.mk acc.reverse, rest)
    else if c = '\\' then
      match rest with
      | [] => none
      | e :: rest2 =>
        if e = '"' then parseStrBody rest2 ('"' :: acc)
        else if e = '\\' then parseStrBody rest2 ('\\' :: acc)
        else if e = '/' then parseStrBody rest2 ('/' :: acc)
        else if e = 'b' then parseStrBody rest2 ('\x08' :: acc)
        else if e = 'f' then parseStrBody rest2 ('\x0c' :: acc)
        else if e = 'n' then parseStrBody rest2 ('\n' :: acc)
        else if e = 'r' then parseStrBody rest2 ('\r' :: acc)
        else if e = 't' then parseStrBody rest2 ('\t' :: acc)
        else if e = 'u' then
          match rest2 with
          | h1 :: h2 :: h3 :: h4 :: rest3 =>
            match hexVal? h1, hexVal? h2, hexVal? h3, hexVal? h4 with
            | some a, some b, some c2, some d =>
              parseStrBody rest3 (Char.ofNat (((a * 16 + b) * 16 + c2) * 16 + d) :: acc)
            | _, _, _, _ => none
          | _ => none
        else none
    else if c.toNat < 32 then none
    else parseStrBody rest (c :: acc)

/-- A JSON number literal (strict grammar: optional minus, integer part with
no leading zero, optional fraction, optional exponent), returning the value
and the remaining input. -/
def parseJsonNumber (cs : List Char) : Option (DecNum × List Char) :=
  let (neg, r0) : Bool × List Char :=
    match cs with
    | '-' :: r => (true, r)
    | _ => (false, cs)
  let (ip, r1) := takeDigits r0
  if ip.isEmpty then none
  else if 1 < ip.length ∧ ip.headD 0 = 0 then none
  else
    let (fp, r2) : List Nat × List Char :=
      match r1 with
      | '.' :: r => takeDigits r
      | _ => ([], r1)
    if (match r1 with | '.' :: _ => fp.isEmpty | _ => false) then none
    else
      let base : DecNum :=
        ⟨(digitsToNat ip : ℤ) * 10 ^ fp.length + (digitsToNat fp : ℤ), fp.length⟩
      let base := if neg then base.neg else base
      let (hasExp, r3) : Bool × List Char :=
        match r2 with
        | 'e' :: r => (true, r)
        | 'E' :: r => (true, r)
        | _ => (false, r2)
      if hasExp then
        let (esign, r4) : ℤ × List Char :=
          match r3 with
          | '+' :: r => (1, r)
          | '-' :: r => (-1, r)
          | _ => (1, r3)
        let (ed, r5) := takeDigits r4
        if ed.isEmpty then none
        else some (base.shift10 (esign * (digitsToNat ed : ℤ)), r5)
      else some (base, r2)

/-- Add one key/value pair the way `JSON.parse` builds objects: a repeated key
keeps its first position but takes the later value. -/
def addField (fs : List (String × JsonValue)) (k : String) (v : JsonValue) :
    List (String × JsonValue) :=
  if fs.any (fun p => p.1 = k) then fs.map (fun p => if p.1 = k then (k, v) else p)
  else fs ++ [(k, v)]

mutual

/-- One JSON value (fuelled recursive descent). -/
def parseVal : Nat → List Char → Option (JsonValue × List Char)
  | 0, _ => none
  | fuel+1, cs =>
    match skipWs cs with
    | [] => none
    | c :: rest =>
      if c = '"' then
        match parseStrBody rest [] with
        | some (s, r) => some (.str s, r)
        | none => none
      else if c = obrace then parseObjBody fuel rest []
      else if c = '[' then parseArrBody fuel rest []
      else
        match c :: rest with
        | 't' :: 'r' :: 'u' :: 'e' :: r => some (.bool true, r)
        | 'f' :: 'a' :: 'l' :: 's' :: 'e' :: r => some (.bool false, r)
        | 'n' :: 'u' :: 'l' :: 'l' :: r => some (.jnull, r)
        | cs2 =>
          match parseJsonNumber cs2 with
          | some (v, r) => some (.num (.num v), r)
          | none => none

/-- The elements of a JSON array after the opening bracket (fuelled). -/
def parseArrBody : Nat → List Char → List JsonValue → Option (JsonValue × List Char)
  | 0, _, _ => none
  | fuel+1, cs, acc =>
    match skipWs cs with
    | ']' :: r => if acc.isEmpty then some (.arr [], r) else none
    | cs2 =>
      match parseVal fuel cs2 with
      | none => none
      | some (v, r) =>
        match skipWs r with
        | ',' :: r2 => parseArrBody fuel r2 (v :: acc)
        | ']' :: r2 => some (.arr (v :: acc).reverse, r2)
        | _ => none

/-- The members of a JSON object after the opening brace (fuelled). -/
def parseObjBody : Nat → List Char → List (String × JsonValue) →
    Option (JsonValue × List Char)
  | 0, _, _ => none
  | fuel+1, cs, acc =>
    match skipWs cs with
    | [] => none
    | c :: r =>
      if c = cbrace then (if acc.isEmpty then some (.obj [], r) else none)
      else if c = '"' then
        match parseStrBody r [] with
        | none => none
        | some (k, r2) =>
          match skipWs r2 with
          | ':' :: r3 =>
            match parseVal fuel r3 with
            | none => none
            | some (v, r4) =>
              match skipWs r4 with
              | ',' :: r5 => parseObjBody fuel r5 (addField acc k v)
              | c2 :: r5 => if c2 = cbrace then some (.obj (addField acc k v), r5) else none
              | [] => none
          | _ => none
      else none

end

/-- `JSON.parse` on a string: one JSON value followed only by whitespace. -/
def parseJsonStr (s : String) : Option JsonValue :=
  match parseVal (4 * (s.length + 1)) s.toList with
  | some (v, r) => if (skipWs r).isEmpty then some v else none
  | none => none

/-- `JSON.parse` applied to an arbitrary value: a non-string argument is
converted to a string first. -/
def jsonParse (v : JsonValue) : Option JsonValue :=
  parseJsonStr (match v with | .str s => s | w => jsToString w)


/-- The error taxonomy named by the specification; each constructor carries
the literal message the source throws via `new Error(...)`. -/
inductive FetchError where
  | authError (msg : String)
  | requestError (msg : String)
  | noContent (msg : String)
  | malformedJson (msg : String)
  | validation (msg : String)
deriving DecidableEq, Repr

/-- The app's missing-credential message (src/App.tsx line 54). -/
def appAuthMsg : String :=
  "Missing OpenAI API key. Provide EXPO_PUBLIC_OPENAI_API_KEY in your environment or set expo.extra.openaiApiKey in app.json."

/-- The app's no-content message (src/App.tsx line 139). -/
def appNoContentMsg : String := "OpenAI did not return any textual content."

/-- The app's JSON-parse-failure message (src/App.tsx line 145). -/
def appMalformedMsg : String := "Failed to parse OpenAI response as JSON."

/-- The app's validation-failure message (src/App.tsx line 150). -/
def appValidationMsg : String := "OpenAI response JSON was missing required fields."

/-- The script's missing-credential message (update-co2.mjs line 6). -/
def mjsAuthMsg : String := "Missing OPENAI_API_KEY environment variable."

/-- The script's no-content message (update-co2.mjs line 78). -/
def mjsNoContentMsg : String := "OpenAI response did not include usable content."

/-- The script's JSON-parse-failure message (update-co2.mjs line 84). -/
def mjsMalformedMsg : String := "Failed to parse OpenAI response JSON."

/-- The script's validation-failure message (update-co2.mjs line 93). -/
def mjsValidationMsg : String := "OpenAI response JSON is missing required fields."

/-- src/App.tsx lines 134-136: the raw content candidate of the app's text
tier: the first text content item's `text` field, else `output_text`, taking
element 0 when `output_text` is an array. -/
def appTextCandidate (resp : OAIResponse) : Option JsonValue :=
  match (contentItems resp).find? isTextContent with
  | some it => getField it "text"
  | none =>
    match resp.output_text with
    | some (.arr l) => l.head?
    | some v => some v
    | none => none

/-- src/App.tsx line 149: `typeof parsed.ppm === 'number'` and truthy
`parsed.source` and truthy `parsed.timestamp`. -/
def appValidCond (parsed : JsonValue) : Bool :=
  (match getField parsed "ppm" with | some (.num _) => true | _ => false)
    && optTruthy (getField parsed "source")
    && optTruthy (getField parsed "timestamp")

/-- src/App.tsx lines 149-153: the field check, else the validation error; on
success the parsed object is returned as is. -/
def appValidate (parsed : JsonValue) : Except FetchError JsonValue :=
  if appValidCond parsed then .ok parsed
  else .error (.validation appValidationMsg)

/-- src/App.tsx lines 142-147 followed by 149-153: `JSON.parse` the candidate
(malformed-JSON error on failure), then validate. -/
def appFinish (cand : JsonValue) : Except FetchError JsonValue :=
  match jsonParse cand with
  | none => .error (.malformedJson appMalformedMsg)
  | some parsed => appValidate parsed

/-- src/App.tsx lines 133-147: the text tier — no-content error on a falsy
candidate, otherwise parse and validate it. -/
def appTextTier (resp : OAIResponse) : Except FetchError JsonValue :=
  match appTextCandidate resp with
  | none => .error (.noContent appNoContentMsg)
  | some v => if truthy v then appFinish v else .error (.noContent appNoContentMsg)

/-- The normalization portion of `fetchCurrentCo2` (src/App.tsx lines
107-153): use the first JSON-tagged content item's `json` when it is truthy
and of object type, else fall through to the text tier. -/
def appNormalize (resp : OAIResponse) : Except FetchError JsonValue :=
  match (contentItems resp).find? isJsonContent with
  | some sc =>
    match getField sc "json" with
    | some j => if truthy j && isObjectType j then appValidate j else appTextTier resp
    | none => appTextTier resp
  | none => appTextTier resp

/-- The two environment variable slots the repository reads. -/
structure EnvVars where
  expoPublicOpenaiApiKey : Option String
  openaiApiKey : Option String

/-- The `extraKey && extraKey.length > 0 ? extraKey : undefined` tail of
`getOpenAIApiKey`. -/
def extraNonEmpty : Option String → Option String
  | some e => if 0 < e.length then some e else none
  | none => none

/-- `getOpenAIApiKey` (src/App.tsx lines 41-49): nullish-coalesce
`EXPO_PUBLIC_OPENAI_API_KEY` with `OPENAI_API_KEY`, return that value when it
is non-empty, otherwise fall through to `Constants.expoConfig.extra.openaiApiKey`
when that is non-empty. -/
def getOpenAIApiKey (env : EnvVars) (extraOpenaiApiKey : Option String) : Option String :=
  let envKey :=
    match env.expoPublicOpenaiApiKey with
    | some k => some k
    | none => env.openaiApiKey
  match envKey with
  | some k => if 0 < k.length then some k else extraNonEmpty extraOpenaiApiKey
  | none => extraNonEmpty extraOpenaiApiKey

/-- `fetchCurrentCo2` of src/App.tsx on a decoded successful response: the
credential check (thrown before the network call is issued, so the result is
independent of the response) followed by normalization. The HTTP POST itself
and the non-2xx `RequestError` path hold no further logic and are not
modelled. -/
def fetchCurrentCo2 (env : EnvVars) (extra : Option String) (resp : OAIResponse) :
    Except FetchError JsonValue :=
  match getOpenAIApiKey env extra with
  | none => .error (.authError appAuthMsg)
  | some _ => appNormalize resp

/-- A normalized reading, the validated `ppm`, `source` and `timestamp` of
src/scripts/update-co2.mjs lines 88-94. -/
structure Reading where
  ppm : DecNum
  source : String
  timestamp : String
deriving DecidableEq, Repr

/-- `typeof reading?.k === 'string' ? reading.k : undefined`. -/
def strField (c : JsonValue) (k : String) : Option String :=
  match getField c k with
  | some (.str s) => some s
  | _ => none

/-- update-co2.mjs lines 88-94: `Number(reading?.ppm)` must be finite,
`reading?.source` and `reading?.timestamp` must be strings and truthy. -/
def mjsValidate (reading : JsonValue) : Except FetchError Reading :=
  match jsToNumber (getField reading "ppm"), strField reading "source",
      strField reading "timestamp" with
  | .num v, some s, some t =>
    if s = "" ∨ t = "" then .error (.validation mjsValidationMsg)
    else .ok ⟨v, s, t⟩
  | _, _, _ => .error (.validation mjsValidationMsg)

/-- update-co2.mjs lines 77-86 applied to a string fallback candidate:
no-content error when it is empty, else `JSON.parse` it (malformed-JSON error
on failure). -/
def mjsParseFallback (s : String) : Except FetchError JsonValue :=
  if s = "" then .error (.noContent mjsNoContentMsg)
  else
    match parseJsonStr s with
    | none => .error (.malformedJson mjsMalformedMsg)
    | some r => .ok r

/-- update-co2.mjs lines 71-86: the script's text tier, yielding the parsed
object. Note the script takes the first STRING element of an `output_text`
array (`find((entry) => typeof entry === 'string')`), unlike the app's
element 0. -/
def mjsTextCandidate (resp : OAIResponse) : Option JsonValue :=
  match (contentItems resp).find? isTextContent with
  | some it => getField it "text"
  | none =>
    match resp.output_text with
    | some (.arr l) => l.find? isStringVal
    | some v => some v
    | none => none

/-- update-co2.mjs lines 77-86: no-content error on a falsy or non-string
fallback, else parse it. -/
def mjsTextTier (resp : OAIResponse) : Except FetchError JsonValue :=
  match mjsTextCandidate resp with
  | some (.str s) => mjsParseFallback s
  | _ => .error (.noContent mjsNoContentMsg)

/-- The script's text tier followed by validation. -/
def mjsTextResult (resp : OAIResponse) : Except FetchError Reading :=
  (mjsTextTier resp).bind mjsValidate

/-- update-co2.mjs line 69: `structuredItem?.json`. -/
def mjsStructured (resp : OAIResponse) : Option JsonValue :=
  match (contentItems resp).find? isJsonContent with
  | some it => getField it "json"
  | none => none

/-- update-co2.mjs lines 62-94: `structuredItem?.json` when truthy, else the
text tier; then validation. -/
def mjsNormalize (resp : OAIResponse) : Except FetchError Reading :=
  match mjsStructured resp with
  | some j => if truthy j then mjsValidate j else mjsTextResult resp
  | none => mjsTextResult resp

/-- `JSON.stringify(payload, null, 2)` for the script's four-field payload
object in its insertion order ppm, timestamp, source, updated_at
(update-co2.mjs lines 96-101). -/
def stringifyPayload (r : Reading) (now : String) : String :=
  "\x7b\n  \"ppm\": " ++ decNumToString r.ppm ++
  ",\n  \"timestamp\": " ++ jsonQuote r.timestamp ++
  ",\n  \"source\": " ++ jsonQuote r.source ++
  ",\n  \"updated_at\": " ++ jsonQuote now ++ "\n\x7d"

/-- One run of src/scripts/update-co2.mjs on a decoded successful response:
the returned string is the exact text written to `data/latest_co2.json`
(which `writeFile` fully replaces); an error models an uncaught exception,
under which nothing is written and the Node process terminates non-zero with
the message on stderr. `now` is the `new Date().toISOString()` capture. -/
def runUpdateScript (env : EnvVars) (resp : OAIResponse) (now : String) :
    Except FetchError String :=
  match env.openaiApiKey with
  | none => .error (.authError mjsAuthMsg)
  | some k =>
    if k = "" then .error (.authError mjsAuthMsg)
    else
      match mjsNormalize resp with
      | .error e => .error e
      | .ok r => .ok (stringifyPayload r now ++ "\n")

/-- Whether the first list is a prefix of the second (on characters). -/
def startsWithChars : List Char → List Char → Bool
  | [], _ => true
  | _ :: _, [] => false
  | a :: as, b :: bs => a = b && startsWithChars as bs

/-- Whether the first list occurs as a contiguous segment of the second. -/
def hasSubChars : List Char → List Char → Bool
  | needle, [] => needle.isEmpty
  | needle, c :: rest => startsWithChars needle (c :: rest) || hasSubChars needle rest

/-- Whether `hay` contains `needle` as a substring. -/
def strContains (hay needle : String) : Bool := hasSubChars needle.toList hay.toList

/- Concrete inputs for the claim theorems. -/

/-- A well-formed embedded reading object. -/
def goodReadingObj : JsonValue :=
  .obj [("ppm", .num (.num ⟨4213, 1⟩)), ("source", .str "https://example.org/co2"),
        ("timestamp", .str "2024-05-01T00:00:00Z")]

/-- The same reading as JSON text. -/
def goodReadingText : String :=
  "\x7b\"ppm\": 421.3, \"source\": \"https://example.org/co2\", \"timestamp\": \"2024-05-01T00:00:00Z\"\x7d"

/-- The reading carried by `goodReadingObj`. -/
def goodReading : Reading :=
  ⟨⟨4213, 1⟩, "https://example.org/co2", "2024-05-01T00:00:00Z"⟩

/-- A response whose only content item is a JSON-tagged item carrying
`goodReadingObj`. -/
def respStructuredGood : OAIResponse :=
  ⟨[some [.obj [("type", .str "json"), ("json", goodReadingObj)]]], none⟩

/-- A response whose first JSON-tagged item has no `json` field while its
second JSON-tagged item embeds a valid reading. -/
def respC1 : OAIResponse :=
  ⟨[some [.obj [("type", .str "json")],
          .obj [("type", .str "json"), ("json", goodReadingObj)]]], none⟩

/-- A response with no content items whose `output_text` is a list headed by
a non-string. -/
def respC2 : OAIResponse := ⟨[], some (.arr [.jnull, .str goodReadingText])⟩

/-- A response with no content items whose `output_text` is a one-string
list. -/
def respW2 : OAIResponse := ⟨[], some (.arr [.str goodReadingText])⟩

/-- A candidate whose ppm is a numeric string. -/
def candC3 : JsonValue :=
  .obj [("ppm", .str "421.3"), ("source", .str "https://example.org/co2"),
        ("timestamp", .str "2024-05-01T00:00:00Z")]

/-- A candidate missing the `source` field. -/
def candC4 : JsonValue :=
  .obj [("ppm", .num (.num ⟨4213, 1⟩)), ("timestamp", .str "2024-05-01T00:00:00Z")]

/-- A structured response embedding a NEGATIVE concentration. -/
def respC5 : OAIResponse :=
  ⟨[some [.obj [("type", .str "json_schema"),
    ("json", .obj [("ppm", .num (.num ⟨-5, 0⟩)), ("source", .str "https://example.org/co2"),
                   ("timestamp", .str "2024-05-01T00:00:00Z")])]]], none⟩

/-- The object embedded in `respC5`. -/
def candC5 : JsonValue :=
  .obj [("ppm", .num (.num ⟨-5, 0⟩)), ("source", .str "https://example.org/co2"),
        ("timestamp", .str "2024-05-01T00:00:00Z")]

/-- A structured response embedding `candC3` (numeric-string ppm). -/
def respC6 : OAIResponse :=
  ⟨[some [.obj [("type", .str "json"), ("json", candC3)]]], none⟩

/-- An entirely empty response. -/
def respEmpty : OAIResponse := ⟨[], none⟩

/-- A response whose first JSON-tagged item carries the truthy non-object
`json: 42`, followed by a text item with a full reading. -/
def respC10 : OAIResponse :=
  ⟨[some [.obj [("type", .str "json"), ("json", .num (.num ⟨42, 0⟩))],
          .obj [("text", .str goodReadingText)]]], none⟩

/-- A response whose only JSON-tagged item has no `json` field, with a
textual `output_text`. -/
def respW10 : OAIResponse :=
  ⟨[some [.obj [("type", .str "json")]]], some (.str goodReadingText)⟩

/- Helper lemmas. -/

theorem getField_isObj {v : JsonValue} {k : String} {w : JsonValue}
    (h : getField v k = some w) : ∃ fs, v = .obj fs := by
  cases v <;> simp_all [getField]

theorem strField_eq_some {c : JsonValue} {k : String} {s : String} :
    strField c k = some s ↔ getField c k = some (.str s) := by
  unfold strField
  cases h : getField c k with
  | none => simp
  | some v => cases v <;> simp_all

theorem appValidCond_iff (c : JsonValue) :
    appValidCond c = true ↔
      (∃ n, getField c "ppm" = some (.num n)) ∧
      optTruthy (getField c "source") = true ∧
      optTruthy (getField c "timestamp") = true := by
  unfold appValidCond
  rw [Bool.and_eq_true, Bool.and_eq_true]
  cases h : getField c "ppm" with
  | none => simp
  | some v => cases v <;> simp [and_assoc]

theorem appValidate_eq_ok_iff {c j : JsonValue} :
    appValidate c = .ok j ↔ appValidCond c = true ∧ j = c := by
  unfold appValidate
  split
  · rename_i hc
    constructor
    · intro h
      injection h with h
      exact ⟨hc, h.symm⟩
    · rintro ⟨_, rfl⟩
      rfl
  · rename_i hc
    constructor
    · intro h
      exact absurd h (by simp)
    · rintro ⟨h1, _⟩
      exact absurd h1 hc

theorem mjsValidate_eq_ok_iff {c : JsonValue} {r : Reading} :
    mjsValidate c = .ok r ↔
      jsToNumber (getField c "ppm") = .num r.ppm ∧
      strField c "source" = some r.source ∧ r.source ≠ "" ∧
      strField c "timestamp" = some r.timestamp ∧ r.timestamp ≠ "" := by
  unfold mjsValidate
  rcases r with ⟨p, s, t⟩
  cases hn : jsToNumber (getField c "ppm") <;>
    cases hs : strField c "source" <;>
      cases ht : strField c "timestamp" <;>
        simp_all
  constructor
  · intro h
    split at h
    · exact absurd h (by simp)
    · rename_i hst
      rw [not_or] at hst
      injection h with h
      injection h with h1 h2 h3
      exact ⟨h1, h2, h2 ▸ hst.1, h3, h3 ▸ hst.2⟩
  · rintro ⟨rfl, rfl, h1, rfl, h2⟩
    simp [h1, h2]

theorem appFinish_ok {v j : JsonValue} (h : appFinish v = .ok j) :
    appValidate j = .ok j := by
  unfold appFinish at h
  split at h
  · exact absurd h (by simp)
  · rcases appValidate_eq_ok_iff.mp h with ⟨hc, rfl⟩
    exact appValidate_eq_ok_iff.mpr ⟨hc, rfl⟩

theorem appTextTier_ok {resp : OAIResponse} {j : JsonValue}
    (h : appTextTier resp = .ok j) : appValidate j = .ok j := by
  unfold appTextTier at h
  split at h
  · exact absurd h (by simp)
  · split at h
    · exact appFinish_ok h
    · exact absurd h (by simp)

theorem appNormalize_ok {resp : OAIResponse} {j : JsonValue}
    (h : appNormalize resp = .ok j) : appValidate j = .ok j := by
  unfold appNormalize at h
  split at h
  · rename_i sc hsc
    split at h
    · split at h
      · rcases appValidate_eq_ok_iff.mp h with ⟨hc, rfl⟩
        exact appValidate_eq_ok_iff.mpr ⟨hc, rfl⟩
      · exact appTextTier_ok h
    · exact appTextTier_ok h
  · exact appTextTier_ok h

theorem mjsTextResult_ok {resp : OAIResponse} {r : Reading}
    (h : mjsTextResult resp = .ok r) : ∃ c, mjsValidate c = .ok r := by
  unfold mjsTextResult at h
  cases htt : mjsTextTier resp with
  | error e => rw [htt] at h; exact absurd h (by simp [Except.bind])
  | ok v => rw [htt] at h; simp [Except.bind] at h; exact ⟨v, h⟩

theorem mjsNormalize_ok {resp : OAIResponse} {r : Reading}
    (h : mjsNormalize resp = .ok r) : ∃ c, mjsValidate c = .ok r := by
  unfold mjsNormalize at h
  split at h
  · split at h
    · exact ⟨_, h⟩
    · exact mjsTextResult_ok h
  · exact mjsTextResult_ok h

theorem appNormalize_structured {resp : OAIResponse} {it j : JsonValue}
    (hfind : (contentItems resp).find? isJsonContent = some it)
    (hjson : getField it "json" = some j)
    (htr : truthy j = true) (hob : isObjectType j = true) :
    appNormalize resp = appValidate j := by
  simp only [appNormalize, hfind, hjson, htr, hob, Bool.and_self, if_true]

theorem mjsNormalize_structured {resp : OAIResponse} {it j : JsonValue}
    (hfind : (contentItems resp).find? isJsonContent = some it)
    (hjson : getField it "json" = some j) (htr : truthy j = true) :
    mjsNormalize resp = mjsValidate j := by
  simp only [mjsNormalize, mjsStructured, hfind, hjson, htr, if_true]

theorem appValidate_valid {j : JsonValue} {d : DecNum} {s t : String}
    (hp : getField j "ppm" = some (.num (.num d)))
    (hs : getField j "source" = some (.str s)) (hs0 : s ≠ "")
    (ht : getField j "timestamp" = some (.str t)) (ht0 : t ≠ "") :
    appValidate j = .ok j := by
  refine appValidate_eq_ok_iff.mpr ⟨(appValidCond_iff j).mpr ⟨⟨_, hp⟩, ?_, ?_⟩, rfl⟩
  · simp [hs, optTruthy, truthy, hs0]
  · simp [ht, optTruthy, truthy, ht0]

theorem mjsValidate_valid {j : JsonValue} {d : DecNum} {s t : String}
    (hp : getField j "ppm" = some (.num (.num d)))
    (hs : getField j "source" = some (.str s)) (hs0 : s ≠ "")
    (ht : getField j "timestamp" = some (.str t)) (ht0 : t ≠ "") :
    mjsValidate j = .ok ⟨d, s, t⟩ := by
  refine mjsValidate_eq_ok_iff.mpr ⟨?_, ?_, hs0, ?_, ht0⟩
  · rw [hp]; rfl
  · exact strField_eq_some.mpr hs
  · exact strField_eq_some.mpr ht

/- Claim theorems. -/

/-- C1 counterexample: `respC1` contains a structured content item tagged as
JSON whose embedded object is a valid reading (its second content item), yet
both normalizers fail with a no-content error, because only the FIRST
JSON-tagged item — which has no `json` field — is ever consulted. -/
theorem later_valid_structured_item_ignored :
    (.obj [("type", .str "json"), ("json", goodReadingObj)]) ∈ contentItems respC1 ∧
    isJsonContent (.obj [("type", .str "json"), ("json", goodReadingObj)]) = true ∧
    getField goodReadingObj "ppm" = some (.num (.num ⟨4213, 1⟩)) ∧
    getField goodReadingObj "source" = some (.str "https://example.org/co2") ∧
    getField goodReadingObj "timestamp" = some (.str "2024-05-01T00:00:00Z") ∧
    appNormalize respC1 = .error (.noContent appNoContentMsg) ∧
    mjsNormalize respC1 = .error (.noContent mjsNoContentMsg) :=
  ⟨by simp [contentItems, respC1], rfl, rfl, rfl, rfl, rfl, rfl⟩

/-- C1 (amended): for every response whose FIRST JSON-tagged content item
embeds an object with a number `ppm`, a non-empty string `source` and a
non-empty string `timestamp`, both normalizers return exactly those values
unmodified, and the text tier is not consulted: the result is unchanged under
any replacement of `output_text`. -/
theorem app_mjs_first_structured_valid_exact
    {resp : OAIResponse} {it0 : JsonValue} {j : JsonValue} {d : DecNum} {s t : String}
    (hfind : (contentItems resp).find? isJsonContent = some it0)
    (hjson : getField it0 "json" = some j)
    (hp : getField j "ppm" = some (.num (.num d)))
    (hs : getField j "source" = some (.str s)) (hs0 : s ≠ "")
    (ht : getField j "timestamp" = some (.str t)) (ht0 : t ≠ "") :
    appNormalize resp = .ok j ∧ mjsNormalize resp = .ok ⟨d, s, t⟩ ∧
    ∀ ot, appNormalize ⟨resp.output, ot⟩ = .ok j ∧
          mjsNormalize ⟨resp.output, ot⟩ = .ok ⟨d, s, t⟩ := by
  obtain ⟨fs, rfl⟩ := getField_isObj hp
  have htr : truthy (.obj fs) = true := rfl
  have hob : isObjectType (.obj fs) = true := rfl
  have happ := appValidate_valid hp hs hs0 ht ht0
  have hmjs := mjsValidate_valid hp hs hs0 ht ht0
  refine ⟨?_, ?_, fun ot => ⟨?_, ?_⟩⟩
  · rw [appNormalize_structured hfind hjson htr hob, happ]
  · rw [mjsNormalize_structured hfind hjson htr, hmjs]
  · have hfind2 : (contentItems ⟨resp.output, ot⟩).find? isJsonContent = some it0 := hfind
    rw [appNormalize_structured hfind2 hjson htr hob, happ]
  · have hfind2 : (contentItems ⟨resp.output, ot⟩).find? isJsonContent = some it0 := hfind
    rw [mjsNormalize_structured hfind2 hjson htr, hmjs]

/-- C1 witness: the amended theorem applied to `respStructuredGood`. -/
theorem app_mjs_first_structured_valid_exact_witness :
    appNormalize respStructuredGood = .ok goodReadingObj ∧
    mjsNormalize respStructuredGood = .ok goodReading :=
  ⟨(@app_mjs_first_structured_valid_exact respStructuredGood
      (.obj [("type", .str "json"), ("json", goodReadingObj)]) goodReadingObj
      ⟨4213, 1⟩ "https://example.org/co2" "2024-05-01T00:00:00Z"
      rfl rfl rfl rfl (by decide) rfl (by decide)).1,
   (@app_mjs_first_structured_valid_exact respStructuredGood
      (.obj [("type", .str "json"), ("json", goodReadingObj)]) goodReadingObj
      ⟨4213, 1⟩ "https://example.org/co2" "2024-05-01T00:00:00Z"
      rfl rfl rfl rfl (by decide) rfl (by decide)).2.1⟩

/-- C2 counterexample: `respC2` has no content items and its `output_text`
list is headed by a non-string (null): the app takes element 0 (falsy) and
fails with a no-content error, while the script skips to the first string
element and returns a full reading — so the first element of the list is not
what the script parses. -/
theorem output_text_nonstring_head_divergence :
    respC2.output_text = some (.arr [.jnull, .str goodReadingText]) ∧
    appNormalize respC2 = .error (.noContent appNoContentMsg) ∧
    mjsNormalize respC2 = .ok goodReading :=
  ⟨rfl, rfl, rfl⟩

/-- C2 (amended): when neither a JSON-tagged nor a text content item exists
and `output_text` is a list, the app uses element 0 of the list as the text
candidate while the script uses the first STRING element; whenever the head
of the list is a non-empty string the two selections coincide and both
programs parse it. -/
theorem output_text_list_candidate_selection
    {resp : OAIResponse} {l : List JsonValue}
    (hj : (contentItems resp).find? isJsonContent = none)
    (ht : (contentItems resp).find? isTextContent = none)
    (hot : resp.output_text = some (.arr l)) :
    appTextCandidate resp = l.head? ∧
    mjsTextCandidate resp = l.find? isStringVal ∧
    (∀ s rest, l = .str s :: rest → s ≠ "" →
      appNormalize resp = appFinish (.str s) ∧
      mjsNormalize resp = (mjsParseFallback s).bind mjsValidate) := by
  refine ⟨?_, ?_, ?_⟩
  · simp only [appTextCandidate, ht, hot]
  · simp only [mjsTextCandidate, ht, hot]
  · rintro s rest rfl hs0
    constructor
    · have htv : truthy (.str s) = true := by simp [truthy, hs0]
      simp [appNormalize, hj, appTextTier, appTextCandidate, ht, hot, htv]
    · simp only [mjsNormalize, mjsStructured, hj, mjsTextResult, mjsTextTier,
        mjsTextCandidate, ht, hot]
      simp [isStringVal]

/-- C2 witness: the amended theorem applied to `respW2`. -/
theorem output_text_list_candidate_selection_witness :
    appNormalize respW2 = appFinish (.str goodReadingText) ∧
    mjsNormalize respW2 = (mjsParseFallback goodReadingText).bind mjsValidate :=
  (@output_text_list_candidate_selection respW2 [.str goodReadingText]
      rfl rfl rfl).2.2 goodReadingText [] rfl (by decide)

/-- C3 counterexample: `candC3` has a numeric-string ppm that coerces to a
finite number, so by the claim validation must accept it — the script does,
but the app rejects it with the validation error (ppm must be of JavaScript
number type there). -/
theorem numeric_string_ppm_validation_divergence :
    (jsToNumber (getField candC3 "ppm")).isFinite = true ∧
    appValidate candC3 = .error (.validation appValidationMsg) ∧
    mjsValidate candC3 = .ok ⟨⟨4213, 1⟩, "https://example.org/co2", "2024-05-01T00:00:00Z"⟩ :=
  ⟨rfl, rfl, rfl⟩

/-- C3 (amended): the script's validation succeeds iff the ppm field coerces
to a finite number and the source and timestamp fields are non-empty strings;
the app's validation instead succeeds iff the ppm field is of JavaScript
number type (hence a NaN ppm is accepted and a numeric string rejected) and
the source and timestamp fields are merely truthy. -/
theorem validation_acceptance_characterization (c : JsonValue) :
    ((∃ r, mjsValidate c = .ok r) ↔
       (jsToNumber (getField c "ppm")).isFinite = true ∧
       (∃ s, strField c "source" = some s ∧ s ≠ "") ∧
       (∃ t, strField c "timestamp" = some t ∧ t ≠ "")) ∧
    ((∃ j, appValidate c = .ok j) ↔
       (∃ n, getField c "ppm" = some (.num n)) ∧
       optTruthy (getField c "source") = true ∧
       optTruthy (getField c "timestamp") = true) := by
  constructor
  · constructor
    · rintro ⟨r, hr⟩
      rcases mjsValidate_eq_ok_iff.mp hr with ⟨h1, h2, h3, h4, h5⟩
      exact ⟨by rw [h1]; rfl, ⟨_, h2, h3⟩, ⟨_, h4, h5⟩⟩
    · rintro ⟨hf, ⟨s, hs, hs0⟩, ⟨t, ht, ht0⟩⟩
      rcases hfin : jsToNumber (getField c "ppm") with v | _ | _ | _
      · exact ⟨⟨v, s, t⟩, mjsValidate_eq_ok_iff.mpr ⟨hfin, hs, hs0, ht, ht0⟩⟩
      all_goals (rw [hfin] at hf; exact absurd hf (by simp [JsNum.isFinite]))
  · constructor
    · rintro ⟨j, hj⟩
      rcases appValidate_eq_ok_iff.mp hj with ⟨hc, rfl⟩
      exact (appValidCond_iff _).mp hc
    · intro hrhs
      exact ⟨c, appValidate_eq_ok_iff.mpr ⟨(appValidCond_iff _).mpr hrhs, rfl⟩⟩

/-- C3 witness: the characterization applied to `candC3`, whose numeric-string
ppm makes the script accept. -/
theorem validation_acceptance_characterization_witness :
    ∃ r, mjsValidate candC3 = .ok r :=
  (validation_acceptance_characterization candC3).1.mpr
    ⟨rfl, ⟨"https://example.org/co2", rfl, by decide⟩,
     ⟨"2024-05-01T00:00:00Z", rfl, by decide⟩⟩

/-- C4 counterexample: on a candidate missing `source` both programs throw
their validation error, but the message is a fixed generic string that does
not contain the word "source". -/
theorem validation_error_message_not_naming_source :
    getField candC4 "source" = none ∧
    appValidate candC4 = .error (.validation appValidationMsg) ∧
    mjsValidate candC4 = .error (.validation mjsValidationMsg) ∧
    strContains appValidationMsg "source" = false ∧
    strContains mjsValidationMsg "source" = false :=
  ⟨rfl, rfl, rfl, by decide, by decide⟩

/-- C4 (amended): a syntactically valid candidate object missing `source`
fails validation in both programs with a `ValidationError`, whose message is
the fixed generic missing-required-fields string — it does not name the
missing field. -/
theorem missing_source_generic_validation_error (c : JsonValue)
    (h : getField c "source" = none) :
    appValidate c = .error (.validation appValidationMsg) ∧
    mjsValidate c = .error (.validation mjsValidationMsg) ∧
    strContains appValidationMsg "source" = false ∧
    strContains mjsValidationMsg "source" = false := by
  refine ⟨?_, ?_, by decide, by decide⟩
  · unfold appValidate appValidCond
    rw [h]
    simp [optTruthy]
  · have hs : strField c "source" = none := by unfold strField; rw [h]
    unfold mjsValidate
    rw [hs]
    cases jsToNumber (getField c "ppm") <;> cases strField c "timestamp" <;> rfl

/-- C4 witness: the amended theorem applied to `candC4`. -/
theorem missing_source_generic_validation_error_witness :
    appValidate candC4 = .error (.validation appValidationMsg) ∧
    mjsValidate candC4 = .error (.validation mjsValidationMsg) ∧
    strContains appValidationMsg "source" = false ∧
    strContains mjsValidationMsg "source" = false :=
  missing_source_generic_validation_error candC4 rfl

/-- C5 counterexample: both programs happily return the reading embedded in
`respC5` although its concentration is -5, which is not positive — the
claimed positivity of the Reading invariant is not enforced anywhere. -/
theorem negative_ppm_reading_accepted :
    mjsNormalize respC5 = .ok ⟨⟨-5, 0⟩, "https://example.org/co2", "2024-05-01T00:00:00Z"⟩ ∧
    appNormalize respC5 = .ok candC5 ∧
    DecNum.toRat ⟨-5, 0⟩ < 0 :=
  ⟨rfl, rfl, by norm_num [DecNum.toRat]⟩

/-- C5 (amended): the invariant actually enforced: every reading the script
returns has a finite concentration (a `DecNum` by the type of `Reading`) and
non-empty `source` and `timestamp` strings — but not necessarily positive;
every object the app returns has a `ppm` field of JavaScript number type
(possibly NaN or infinite) and truthy `source` and `timestamp` fields. -/
theorem reading_invariant_as_enforced :
    (∀ (resp : OAIResponse) (r : Reading), mjsNormalize resp = .ok r →
       r.source ≠ "" ∧ r.timestamp ≠ "") ∧
    (∀ (resp : OAIResponse) (j : JsonValue), appNormalize resp = .ok j →
       (∃ n, getField j "ppm" = some (.num n)) ∧
       optTruthy (getField j "source") = true ∧
       optTruthy (getField j "timestamp") = true) := by
  constructor
  · intro resp r h
    rcases mjsNormalize_ok h with ⟨c, hc⟩
    rcases mjsValidate_eq_ok_iff.mp hc with ⟨_, _, h3, _, h5⟩
    exact ⟨h3, h5⟩
  · intro resp j h
    rcases appValidate_eq_ok_iff.mp (appNormalize_ok h) with ⟨hc, _⟩
    exact (appValidCond_iff _).mp hc

/-- C5 witness: the enforced invariant at `respStructuredGood`. -/
theorem reading_invariant_as_enforced_witness :
    goodReading.source ≠ "" ∧ goodReading.timestamp ≠ "" :=
  reading_invariant_as_enforced.1 respStructuredGood goodReading rfl

/-- C6 counterexample: on `respC6` the two fetch/normalize copies are not
extensionally equal: the app fails with its validation error while the script
succeeds with a reading (the numeric-string ppm is coerced only there). -/
theorem app_mjs_normalization_divergence :
    appNormalize respC6 = .error (.validation appValidationMsg) ∧
    mjsNormalize respC6 = .ok ⟨⟨4213, 1⟩, "https://example.org/co2", "2024-05-01T00:00:00Z"⟩ :=
  ⟨rfl, rfl⟩

/-- C6 (amended): the duplicated logic is not extensionally equal in general
(see the counterexample), but the two copies agree whenever the first
structured candidate is well-formed: both then produce readings with the same
ppm, source and timestamp. -/
theorem app_mjs_agreement_on_wellformed_structured
    {resp : OAIResponse} {it0 j : JsonValue} {d : DecNum} {s t : String}
    (hfind : (contentItems resp).find? isJsonContent = some it0)
    (hjson : getField it0 "json" = some j)
    (hp : getField j "ppm" = some (.num (.num d)))
    (hs : getField j "source" = some (.str s)) (hs0 : s ≠ "")
    (ht : getField j "timestamp" = some (.str t)) (ht0 : t ≠ "") :
    ∃ r : Reading, appNormalize resp = .ok j ∧ mjsNormalize resp = .ok r ∧
      getField j "ppm" = some (.num (.num r.ppm)) ∧
      getField j "source" = some (.str r.source) ∧
      getField j "timestamp" = some (.str r.timestamp) := by
  obtain ⟨fs, rfl⟩ := getField_isObj hp
  refine ⟨⟨d, s, t⟩, ?_, ?_, hp, hs, ht⟩
  · rw [appNormalize_structured hfind hjson rfl rfl, appValidate_valid hp hs hs0 ht ht0]
  · rw [mjsNormalize_structured hfind hjson rfl, mjsValidate_valid hp hs hs0 ht ht0]

/-- C6 witness: the agreement applied to `respStructuredGood`. -/
theorem app_mjs_agreement_on_wellformed_structured_witness :
    ∃ r : Reading, appNormalize respStructuredGood = .ok goodReadingObj ∧
      mjsNormalize respStructuredGood = .ok r ∧
      getField goodReadingObj "ppm" = some (.num (.num r.ppm)) ∧
      getField goodReadingObj "source" = some (.str r.source) ∧
      getField goodReadingObj "timestamp" = some (.str r.timestamp) :=
  @app_mjs_agreement_on_wellformed_structured respStructuredGood
    (.obj [("type", .str "json"), ("json", goodReadingObj)]) goodReadingObj
    ⟨4213, 1⟩ "https://example.org/co2" "2024-05-01T00:00:00Z"
    rfl rfl rfl rfl (by decide) rfl (by decide)

/-- C7 counterexample: with `EXPO_PUBLIC_OPENAI_API_KEY` set to the empty
string and `OPENAI_API_KEY` set to a real key, a credential IS present among
the three configured locations, yet the app fails with its auth error on
every response: the nullish-coalescing chain stops at the empty string and
`OPENAI_API_KEY` is never consulted. -/
theorem empty_expo_key_masks_openai_key :
    (EnvVars.mk (some "") (some "sk-live-123")).openaiApiKey = some "sk-live-123" ∧
    0 < "sk-live-123".length ∧
    getOpenAIApiKey ⟨some "", some "sk-live-123"⟩ none = none ∧
    fetchCurrentCo2 ⟨some "", some "sk-live-123"⟩ none respStructuredGood =
      .error (.authError appAuthMsg) :=
  ⟨rfl, by decide, rfl, rfl⟩

/-- C7 (amended): when no credential resolves, the fetch fails with the auth
error independently of the response (so before any network activity can
matter). A non-empty `EXPO_PUBLIC_OPENAI_API_KEY` wins; `OPENAI_API_KEY` is
consulted only when the former is entirely unset (an empty-string
`EXPO_PUBLIC_OPENAI_API_KEY` masks it and resolution falls through to the
config extra). The batch script consults `OPENAI_API_KEY` alone and auth-fails
whenever it is unset or empty. -/
theorem credential_resolution_characterization (env : EnvVars) (extra : Option String) :
    (getOpenAIApiKey env extra = none →
       ∀ resp, fetchCurrentCo2 env extra resp = .error (.authError appAuthMsg)) ∧
    (∀ k, env.expoPublicOpenaiApiKey = some k → 0 < k.length →
       getOpenAIApiKey env extra = some k) ∧
    (∀ k, env.expoPublicOpenaiApiKey = none → env.openaiApiKey = some k →
       0 < k.length → getOpenAIApiKey env extra = some k) ∧
    (env.expoPublicOpenaiApiKey = some "" →
       getOpenAIApiKey env extra = extraNonEmpty extra) ∧
    ((env.openaiApiKey = none ∨ env.openaiApiKey = some "") →
       ∀ resp now, runUpdateScript env resp now = .error (.authError mjsAuthMsg)) := by
  refine ⟨?_, ?_, ?_, ?_, ?_⟩
  · intro h resp
    unfold fetchCurrentCo2
    rw [h]
  · intro k hk hlen
    unfold getOpenAIApiKey
    rw [hk]
    simp [hlen]
  · intro k h1 h2 hlen
    unfold getOpenAIApiKey
    rw [h1, h2]
    simp [hlen]
  · intro h
    unfold getOpenAIApiKey
    rw [h]
    rfl
  · rintro (h | h) resp now <;> unfold runUpdateScript <;> rw [h]
    rfl

/-- C7 witness: the characterization applied to an environment holding only a
non-empty `EXPO_PUBLIC_OPENAI_API_KEY`. -/
theorem credential_resolution_characterization_witness :
    getOpenAIApiKey ⟨some "sk-a", none⟩ none = some "sk-a" :=
  (credential_resolution_characterization ⟨some "sk-a", none⟩ none).2.1 "sk-a" rfl
    (by decide)

/-- C8: a response containing no JSON-tagged content item, no text-bearing
content item, and no usable `output_text` (absent, the empty string, or an
empty list) fails in both programs with the no-content error — not with the
malformed-JSON or validation errors. -/
theorem no_content_error_on_empty_response (resp : OAIResponse)
    (hj : ∀ it ∈ contentItems resp, isJsonContent it = false)
    (ht : ∀ it ∈ contentItems resp, isTextContent it = false)
    (hot : resp.output_text = none ∨ resp.output_text = some (.str "") ∨
           resp.output_text = some (.arr [])) :
    appNormalize resp = .error (.noContent appNoContentMsg) ∧
    mjsNormalize resp = .error (.noContent mjsNoContentMsg) := by
  have hj2 : (contentItems resp).find? isJsonContent = none :=
    List.find?_eq_none.mpr (by intro x hx; simp [hj x hx])
  have ht2 : (contentItems resp).find? isTextContent = none :=
    List.find?_eq_none.mpr (by intro x hx; simp [ht x hx])
  constructor
  · simp only [appNormalize, hj2, appTextTier, appTextCandidate, ht2]
    rcases hot with h | h | h <;> rw [h] <;> rfl
  · simp only [mjsNormalize, mjsStructured, hj2, mjsTextResult, mjsTextTier,
      mjsTextCandidate, ht2]
    rcases hot with h | h | h <;> rw [h] <;> rfl

/-- C8 witness: the theorem applied to the entirely empty response. -/
theorem no_content_error_on_empty_response_witness :
    appNormalize respEmpty = .error (.noContent appNoContentMsg) ∧
    mjsNormalize respEmpty = .error (.noContent mjsNoContentMsg) :=
  no_content_error_on_empty_response respEmpty
    (by intro it h; simp [contentItems, respEmpty] at h)
    (by intro it h; simp [contentItems, respEmpty] at h)
    (Or.inl rfl)

/-- C9: under a usable credential, a successful run of the batch script
produces exactly the pretty-printed four-field JSON object (ppm, timestamp,
source, updated_at; two-space indentation) terminated by a newline — the
entire new contents of the overwritten file — and any fetch or normalization
error propagates unchanged (the process throws, writes nothing and exits
non-zero). -/
theorem script_output_format_and_error_propagation
    (env : EnvVars) (resp : OAIResponse) (now : String) (k : String)
    (hk : env.openaiApiKey = some k) (hk0 : k ≠ "") :
    (∀ r, mjsNormalize resp = .ok r →
       runUpdateScript env resp now =
         .ok ("\x7b\n  \"ppm\": " ++ decNumToString r.ppm ++
              ",\n  \"timestamp\": " ++ jsonQuote r.timestamp ++
              ",\n  \"source\": " ++ jsonQuote r.source ++
              ",\n  \"updated_at\": " ++ jsonQuote now ++ "\n\x7d" ++ "\n")) ∧
    (∀ e, mjsNormalize resp = .error e → runUpdateScript env resp now = .error e) := by
  constructor
  · intro r hr
    simp only [runUpdateScript, hk]
    rw [if_neg hk0, hr]
    rfl
  · intro e he
    simp only [runUpdateScript, hk]
    rw [if_neg hk0, he]

/-- C9 witness: a full run on `respStructuredGood`, yielding the exact file
text. -/
theorem script_output_format_and_error_propagation_witness :
    runUpdateScript ⟨none, some "sk-w"⟩ respStructuredGood "2024-05-02T12:00:00Z" =
      .ok "\x7b\n  \"ppm\": 421.3,\n  \"timestamp\": \"2024-05-01T00:00:00Z\",\n  \"source\": \"https://example.org/co2\",\n  \"updated_at\": \"2024-05-02T12:00:00Z\"\n\x7d\n" := by
  have h := (script_output_format_and_error_propagation ⟨none, some "sk-w"⟩
    respStructuredGood "2024-05-02T12:00:00Z" "sk-w" rfl (by decide)).1 goodReading rfl
  exact h

/-- C10 counterexample: the first JSON-tagged item of `respC10` carries the
truthy non-object `json: 42`, and a text item with a full reading follows:
the app falls through to the text tier and returns that reading, but the
script does NOT fall through — it validates 42 directly and fails with its
validation error instead of producing the reading from the text. -/
theorem mjs_truthy_nonobject_json_no_fallthrough :
    appNormalize respC10 = .ok goodReadingObj ∧
    mjsNormalize respC10 = .error (.validation mjsValidationMsg) :=
  ⟨rfl, rfl⟩

/-- C10 (amended): the app falls through to the text tier when the first
JSON-tagged item's `json` is absent, falsy, or not of object type; the script
falls through only when it is absent or falsy — a truthy non-object `json`
is handed to validation directly there. -/
theorem structured_fallthrough_conditions
    {resp : OAIResponse} {it0 : JsonValue}
    (hfind : (contentItems resp).find? isJsonContent = some it0) :
    (getField it0 "json" = none →
       appNormalize resp = appTextTier resp ∧ mjsNormalize resp = mjsTextResult resp) ∧
    (∀ j, getField it0 "json" = some j → truthy j = false →
       appNormalize resp = appTextTier resp ∧ mjsNormalize resp = mjsTextResult resp) ∧
    (∀ j, getField it0 "json" = some j → truthy j = true → isObjectType j = false →
       appNormalize resp = appTextTier resp ∧ mjsNormalize resp = mjsValidate j) := by
  refine ⟨?_, ?_, ?_⟩
  · intro h
    constructor
    · simp only [appNormalize, hfind, h]
    · simp only [mjsNormalize, mjsStructured, hfind, h]
  · intro j h htr
    constructor
    · simp [appNormalize, hfind, h, htr]
    · simp [mjsNormalize, mjsStructured, hfind, h, htr]
  · intro j h htr hob
    constructor
    · simp [appNormalize, hfind, h, htr, hob]
    · simp [mjsNormalize, mjsStructured, hfind, h, htr]

/-- C10 witness: the fallthrough applied to `respW10`, whose only JSON-tagged
item lacks a `json` field. -/
theorem structured_fallthrough_conditions_witness :
    appNormalize respW10 = appTextTier respW10 ∧
    mjsNormalize respW10 = mjsTextResult respW10 :=
  (@structured_fallthrough_conditions respW10 (.obj [("type", .str "json")]) rfl).1 rfl
